import Mathlib

/-!
Verification of the body-fat estimation core of the fitplanner-bf-api
repository: a shallow embedding in Lean 4 of the ratio calculator, the
body-type classifier, the rule-based estimator, the texture estimator,
the fusion (ensemble) engine and the physiological validator, together
with proofs and refutations of the specified properties.

Numbers are modelled as exact rationals (`ℚ`); Python's `round(x, d)`
(round-half-to-even) is modelled exactly by `roundTo d`.  The random
perturbation drawn inside the rule-based estimator is modelled as an
explicit `noise` argument, so the estimator is a function of its inputs
and of the hidden draw.
-/

namespace FitPlanner

/-- Round-half-to-even to the nearest integer, exactly as Python's
built-in `round` behaves on an exact value. -/
def rhe (x : ℚ) : ℤ :=
  if x - ⌊x⌋ < 1 / 2 then ⌊x⌋
  else if 1 / 2 < x - ⌊x⌋ then ⌊x⌋ + 1
  else if ⌊x⌋ % 2 = 0 then ⌊x⌋ else ⌊x⌋ + 1

theorem floor_le_rhe (x : ℚ) : ⌊x⌋ ≤ rhe x := by
  unfold rhe; split_ifs <;> omega

theorem rhe_le_floor_add_one (x : ℚ) : rhe x ≤ ⌊x⌋ + 1 := by
  unfold rhe; split_ifs <;> omega

theorem rhe_intCast (n : ℤ) : rhe (n : ℚ) = n := by
  unfold rhe
  rw [Int.floor_intCast]
  norm_num

theorem int_le_rhe {n : ℤ} {x : ℚ} (h : (n : ℚ) ≤ x) : n ≤ rhe x :=
  le_trans (Int.le_floor.2 h) (floor_le_rhe x)

theorem rhe_le_int {n : ℤ} {x : ℚ} (h : x ≤ (n : ℚ)) : rhe x ≤ n := by
  rcases eq_or_lt_of_le h with h' | h'
  · rw [h', rhe_intCast]
  · have hf : ⌊x⌋ < n := Int.floor_lt.2 h'
    exact le_trans (rhe_le_floor_add_one x) (by omega)

theorem abs_rhe_sub_le (x : ℚ) : |(rhe x : ℚ) - x| ≤ 1 / 2 := by
  have h0 := Int.floor_le x
  have h1 := Int.lt_floor_add_one x
  unfold rhe
  split_ifs with h2 h3 h4 <;> rw [abs_le] <;> constructor <;> push_cast <;> linarith

theorem rhe_mono {x y : ℚ} (h : x ≤ y) : rhe x ≤ rhe y := by
  rcases lt_or_le ⌊x⌋ ⌊y⌋ with hf | hf
  · exact le_trans (rhe_le_floor_add_one x) (le_trans (by omega) (floor_le_rhe y))
  · have hf' : ⌊x⌋ = ⌊y⌋ := le_antisymm (Int.floor_mono h) hf
    unfold rhe
    rw [hf']
    split_ifs <;> first | omega | (exfalso; rw [hf'] at *; linarith)

/-- The two half-even roundings of `a` and `1000 - a` always add up to
`1000` (the midpoint case is resolved by the opposite parities of the
two floors, `1000` being even). -/
theorem rhe_pair_thousand (a : ℚ) : rhe a + rhe (1000 - a) = 1000 := by
  have h0 := Int.floor_le a
  have h1 := Int.lt_floor_add_one a
  rcases eq_or_lt_of_le h0 with hz | hz
  · have ha : a = (⌊a⌋ : ℚ) := hz.symm
    rw [ha, rhe_intCast, show ((1000 : ℚ) - (⌊a⌋ : ℚ)) = (((1000 - ⌊a⌋ : ℤ)) : ℚ) by push_cast; ring,
      rhe_intCast]
    omega
  · have hfl : ⌊(1000 : ℚ) - a⌋ = 1000 - ⌊a⌋ - 1 := by
      apply Int.floor_eq_iff.2
      constructor <;> push_cast <;> linarith
    unfold rhe
    rw [hfl]
    split_ifs <;> push_cast at * <;> first | omega | linarith

theorem rhe_eq_low {x : ℚ} {n : ℤ} (h1 : (n : ℚ) ≤ x) (h2 : x < (n : ℚ) + 1 / 2) :
    rhe x = n := by
  have hf : ⌊x⌋ = n := Int.floor_eq_iff.2 ⟨h1, by linarith⟩
  unfold rhe
  rw [hf]
  rw [if_pos (by linarith)]

theorem rhe_eq_high {x : ℚ} {n : ℤ} (h1 : (n : ℚ) + 1 / 2 < x) (h2 : x < (n : ℚ) + 1) :
    rhe x = n + 1 := by
  have hf : ⌊x⌋ = n := Int.floor_eq_iff.2 ⟨by linarith, by linarith⟩
  unfold rhe
  rw [hf]
  rw [if_neg (by linarith), if_pos (by linarith)]


/-- Python's `round(x, d)` on exact rationals. -/
def roundTo (d : ℕ) (x : ℚ) : ℚ :=
  (rhe (x * 10 ^ d) : ℚ) / 10 ^ d

theorem roundTo_eq_low (d : ℕ) {x : ℚ} {n : ℤ} (h1 : (n : ℚ) ≤ x * 10 ^ d)
    (h2 : x * 10 ^ d < (n : ℚ) + 1 / 2) : roundTo d x = (n : ℚ) / 10 ^ d := by
  unfold roundTo
  rw [rhe_eq_low h1 h2]

theorem roundTo_eq_high (d : ℕ) {x : ℚ} {n : ℤ} (h1 : (n : ℚ) + 1 / 2 < x * 10 ^ d)
    (h2 : x * 10 ^ d < (n : ℚ) + 1) : roundTo d x = ((n : ℚ) + 1) / 10 ^ d := by
  unfold roundTo
  rw [rhe_eq_high h1 h2]
  push_cast
  ring

theorem roundTo_intCast (d : ℕ) (n : ℤ) : roundTo d (n : ℚ) = n := by
  unfold roundTo
  rw [show ((n : ℚ) * 10 ^ d) = (((n * 10 ^ d : ℤ)) : ℚ) by push_cast; ring, rhe_intCast]
  push_cast
  rw [mul_div_assoc, div_self (by positivity), mul_one]

theorem roundTo_mono (d : ℕ) {x y : ℚ} (h : x ≤ y) : roundTo d x ≤ roundTo d y := by
  unfold roundTo
  have hp : (0 : ℚ) < 10 ^ d := by positivity
  apply div_le_div_of_nonneg_right _ hp.le
  exact_mod_cast rhe_mono (mul_le_mul_of_nonneg_right h (le_of_lt hp))

theorem scaled_le_roundTo (d : ℕ) (k : ℤ) {x : ℚ} (h : (k : ℚ) / 10 ^ d ≤ x) :
    (k : ℚ) / 10 ^ d ≤ roundTo d x := by
  unfold roundTo
  have hp : (0 : ℚ) < 10 ^ d := by positivity
  apply div_le_div_of_nonneg_right _ hp.le
  have hk : (k : ℚ) ≤ x * 10 ^ d := by
    rw [div_le_iff hp] at h
    exact h
  exact_mod_cast int_le_rhe hk

theorem roundTo_le_scaled (d : ℕ) (k : ℤ) {x : ℚ} (h : x ≤ (k : ℚ) / 10 ^ d) :
    roundTo d x ≤ (k : ℚ) / 10 ^ d := by
  unfold roundTo
  have hp : (0 : ℚ) < 10 ^ d := by positivity
  apply div_le_div_of_nonneg_right _ hp.le
  have hk : x * 10 ^ d ≤ (k : ℚ) := by
    rw [le_div_iff hp] at h
    exact h
  exact_mod_cast rhe_le_int hk

theorem abs_roundTo_sub_le (d : ℕ) (x : ℚ) : |roundTo d x - x| ≤ 1 / (2 * 10 ^ d) := by
  unfold roundTo
  have hp : (0 : ℚ) < 10 ^ d := by positivity
  have h := abs_rhe_sub_le (x * 10 ^ d)
  have hx : (rhe (x * 10 ^ d) : ℚ) / 10 ^ d - x = ((rhe (x * 10 ^ d) : ℚ) - x * 10 ^ d) / 10 ^ d := by
    field_simp
    ring
  rw [hx, abs_div, abs_of_pos hp, div_le_div_iff hp (by positivity)]
  calc |(rhe (x * 10 ^ d) : ℚ) - x * 10 ^ d| * (2 * 10 ^ d)
      ≤ (1 / 2) * (2 * 10 ^ d) := by
        apply mul_le_mul_of_nonneg_right h (by positivity)
    _ = 1 * 10 ^ d := by ring

/-- Rounding to three decimals maps `x` and `1 - x` to values summing
exactly to `1`. -/
theorem roundTo_three_compl (x : ℚ) : roundTo 3 x + roundTo 3 (1 - x) = 1 := by
  unfold roundTo
  have h : (1 - x) * 10 ^ 3 = 1000 - x * 10 ^ 3 := by ring
  rw [h]
  have := rhe_pair_thousand (x * 10 ^ 3)
  have h10 : ((10 : ℚ) ^ 3) = 1000 := by norm_num
  rw [h10]
  field_simp
  exact_mod_cast this

/-! ## Data model

`Measurements` mirrors the Python measurement dict: each key may be
absent (`none`), and consumers either fail (`m["k"]`, a `KeyError`) or
fall back to a default (`m.get("k", d)`).  `Ratios` and `TextureData`
are always produced with all of their keys, so they are plain records. -/

structure Measurements where
  shoulder_width : Option ℚ
  hip_width : Option ℚ
  waist_width : Option ℚ
  torso_height : Option ℚ
  volume_indicator : Option ℚ
  waist_prominence : Option ℚ
deriving DecidableEq

structure Ratios where
  waist_to_shoulder : ℚ
  hip_to_shoulder : ℚ
  torso_to_shoulder : ℚ
deriving DecidableEq

/-- The texture-analysis scores consumed by the fusion engine and the
texture estimator (the analyzer emits further raw sub-scores, unused by
the core). -/
structure TextureData where
  definition_score : ℚ
  abs_visibility : ℚ
  vascularity : ℚ
  central_fat : ℚ
  confidence : ℚ
deriving DecidableEq

/-- Python exceptions raised by the embedded code. -/
inductive PyErr where
  | keyError (key : String)
  | zeroDivisionError
deriving DecidableEq

/-- Python `m["k"]`: a missing key raises `KeyError`. -/
def dictGet (key : String) (v : Option ℚ) : Except PyErr ℚ :=
  match v with
  | some x => .ok x
  | none => .error (.keyError key)

/-- Python division: raises `ZeroDivisionError` on a zero divisor. -/
def pyDiv (a b : ℚ) : Except PyErr ℚ :=
  if b = 0 then .error .zeroDivisionError else .ok (a / b)

/-! ## app/services/body_ratios.py -/

/-- Embedding of `calculate_body_ratios`: the three ratio entries are computed in
dict-literal order, each one looking the numerator up first, then
`shoulder_width`, then dividing.  The source repeats the
`shoulder_width` lookup per entry; on an immutable mapping a repeated
lookup after a successful one cannot fail, so it is performed once. -/
def calculate_body_ratios (m : Measurements) : Except PyErr Ratios :=
  match dictGet "waist_width" m.waist_width with
  | .error e => .error e
  | .ok waist =>
    match dictGet "shoulder_width" m.shoulder_width with
    | .error e => .error e
    | .ok s =>
      match pyDiv waist s with
      | .error e => .error e
      | .ok wts =>
        match dictGet "hip_width" m.hip_width with
        | .error e => .error e
        | .ok hip =>
          match pyDiv hip s with
          | .error e => .error e
          | .ok hts =>
            match dictGet "torso_height" m.torso_height with
            | .error e => .error e
            | .ok torso =>
              match pyDiv torso s with
              | .error e => .error e
              | .ok tts =>
                .ok { waist_to_shoulder := wts, hip_to_shoulder := hts, torso_to_shoulder := tts }

/-! ## app/services/body_classifier.py -/

/-- Python's `bmi and bmi >= 28`: `None` and `0.0` are falsy. -/
def bmiTruthyGe28 (bmi : Option ℚ) : Prop :=
  match bmi with
  | none => False
  | some b => ¬b = 0 ∧ 28 ≤ b

instance (bmi : Option ℚ) : Decidable (bmiTruthyGe28 bmi) := by
  unfold bmiTruthyGe28
  cases bmi <;> infer_instance

/-- Embedding of `classify_body_type` from `body_classifier.py`. -/
def classify_body_type (ratios : Ratios) (sex : String) (bmi : Option ℚ) : String :=
  if sex = "female" then
    if ratios.waist_to_shoulder < 0.45 ∧ ratios.hip_to_shoulder < 0.9 then "muscular"
    else if ratios.waist_to_shoulder > 0.6 ∨ bmiTruthyGe28 bmi then "overweight"
    else "lean"
  else
    if ratios.waist_to_shoulder < 0.4 ∧ ratios.hip_to_shoulder < 0.85 then "muscular"
    else if ratios.waist_to_shoulder > 0.6 ∨ bmiTruthyGe28 bmi then "overweight"
    else "lean"

/-! ## app/services/body_fat_logic.py

The random perturbation `random.uniform(-0.5, 0.5)` drawn inside
`estimate_body_fat` is modelled as the explicit argument `noise`; the
Python dict/None truthiness of the optional `ratios` and `measurements`
arguments is modelled by `Option` (an absent mapping contributes a zero
adjustment, exactly as an empty or `None` argument does). -/

def baseValue (body_type sex : String) : ℚ :=
  if body_type = "lean" then (if sex = "male" then 10 else 18)
  else if body_type = "athletic" then (if sex = "male" then 12 else 20)
  else if body_type = "muscular" then (if sex = "male" then 15 else 23)
  else if body_type = "overweight" then (if sex = "male" then 25 else 32)
  else (if sex = "male" then 15 else 25)

def bmiAdjustment (bmi : ℚ) : ℚ :=
  if bmi < 18.5 then -3
  else if bmi < 22 then -1
  else if bmi < 25 then 1
  else if bmi < 27.5 then 4
  else if bmi < 30 then 7
  else if bmi < 32.5 then 10
  else 14

def waistAdjustment (sex : String) (ratios : Option Ratios) : ℚ :=
  match ratios with
  | none => 0
  | some r =>
    if sex = "male" then
      if r.waist_to_shoulder > 0.70 then 6
      else if r.waist_to_shoulder > 0.65 then 4
      else if r.waist_to_shoulder > 0.58 then 2
      else if r.waist_to_shoulder > 0.52 then 1
      else 0
    else
      if r.waist_to_shoulder > 0.75 then 5
      else if r.waist_to_shoulder > 0.70 then 3
      else if r.waist_to_shoulder > 0.62 then 2
      else if r.waist_to_shoulder > 0.55 then 1
      else 0

def visualAdjustment (measurements : Option Measurements) : ℚ :=
  match measurements with
  | none => 0
  | some m =>
    (let v := m.volume_indicator.getD 0
     if v > 0.25 then 3 else if v > 0.20 then 2 else if v > 0.15 then 1 else 0) +
    (let wp := m.waist_prominence.getD 0
     if wp > 0.03 then 4 else if wp > 0.01 then 2 else if wp > 0 then 1 else 0)

/-- Embedding of `estimate_body_fat` from `body_fat_logic.py`; `noise` is the value
of the hidden `random.uniform(-0.5, 0.5)` draw. -/
def estimate_body_fat (body_type : String) (bmi : ℚ) (sex : String)
    (ratios : Option Ratios) (measurements : Option Measurements) (noise : ℚ) : ℚ :=
  let body_fat := baseValue body_type sex + bmiAdjustment bmi +
    waistAdjustment sex ratios + visualAdjustment measurements + noise
  if sex = "male" then roundTo 1 (max 5 (min body_fat 45))
  else roundTo 1 (max 12 (min body_fat 50))

/-! ## app/services/texture_analyzer.py (estimate_bf_from_definition) -/

/-- Embedding of `estimate_bf_from_definition` from `texture_analyzer.py`. -/
def estimate_bf_from_definition (d : TextureData) (sex : String) (bmi : ℚ) : ℚ :=
  let visual_score0 := d.definition_score * 0.40 + d.abs_visibility * 0.35 + d.vascularity * 0.25
  let visual_score :=
    if d.central_fat > 0.70 then visual_score0 * 0.70
    else if d.central_fat > 0.60 then visual_score0 * 0.80
    else if d.central_fat > 0.50 then visual_score0 * 0.90
    else visual_score0
  let bf0 :=
    if sex = "male" then
      if visual_score > 0.85 then 7 + (1 - visual_score) * 27
      else if visual_score > 0.70 then 11 + (0.85 - visual_score) * 33
      else if visual_score > 0.50 then 16 + (0.70 - visual_score) * 40
      else 24 + (0.50 - visual_score) * 50
    else
      if visual_score > 0.80 then 14 + (1 - visual_score) * 30
      else if visual_score > 0.60 then 20 + (0.80 - visual_score) * 30
      else if visual_score > 0.40 then 26 + (0.60 - visual_score) * 40
      else 34 + (0.40 - visual_score) * 50
  let bf1 :=
    if bmi < 20 ∧ bf0 > 16 then 9 + (bmi - 18) * 3
    else if bmi > 30 ∧ bf0 < 20 then 20 + (bmi - 30) * 2.5
    else bf0
  let bf2 :=
    if d.central_fat > 0.75 then min (bf1 + 5) (if sex = "male" then 45 else 50)
    else if d.central_fat > 0.65 then min (bf1 + 3) (if sex = "male" then 45 else 50)
    else bf1
  roundTo 1 bf2

/-! ## app/services/bf_validator.py (validate_and_adjust_bf) -/

/-- Which override rule (if any) produced the final reason string. -/
inductive ValidationReason where
  | noReason
  | lowBmiHighBf
  | athleticPhysique
  | highBmiLowBf
  | wideWaist
deriving DecidableEq

structure ValidationResult where
  adjusted_bf : ℚ
  original_bf : ℚ
  was_adjusted : Bool
  adjustment : ℚ
  reason : ValidationReason
  confidence : String
deriving DecidableEq

/-- Embedding of `validate_and_adjust_bf` from `bf_validator.py`.  All four rule
conditions read the unmodified `bf_prediction` argument; only the
replacement value cascades (later rules overwrite earlier ones).  The
formatted reason string is modelled by the rule tag that produced it. -/
def validate_and_adjust_bf (bf_prediction bmi : ℚ) (sex : String)
    (measurements : Measurements) (ratios : Ratios) : ValidationResult :=
  let waist_to_shoulder := ratios.waist_to_shoulder
  let volume_indicator := measurements.volume_indicator.getD 0.15
  let cond1 := bmi < 22 ∧ bf_prediction > 20
  let a1 := if cond1 then (if sex = "male" then 8 + (bmi - 18) * 2 else 16 + (bmi - 18) * 2)
    else bf_prediction
  let r1 := if cond1 then ValidationReason.lowBmiHighBf else ValidationReason.noReason
  let is_athletic := waist_to_shoulder < 0.50 ∧ volume_indicator > 0.20 ∧ 20 ≤ bmi ∧ bmi ≤ 26
  let cond2 := is_athletic ∧ bf_prediction > 18
  let a2 := if cond2 then
      (if sex = "male" then 8 + waist_to_shoulder * 20 else 16 + waist_to_shoulder * 20)
    else a1
  let r2 := if cond2 then ValidationReason.athleticPhysique else r1
  let cond3 := bmi > 28 ∧ bf_prediction < 20
  let a3 := if cond3 then (if sex = "male" then 20 + (bmi - 28) * 1.5 else 28 + (bmi - 28) * 1.5)
    else a2
  let r3 := if cond3 then ValidationReason.highBmiLowBf else r2
  let cond4 := waist_to_shoulder > 0.70 ∧ bf_prediction < 22
  let a4 := if cond4 then
      (if sex = "male" then 22 + (waist_to_shoulder - 0.70) * 40
       else 30 + (waist_to_shoulder - 0.70) * 40)
    else a3
  let r4 := if cond4 then ValidationReason.wideWaist else r3
  let was := decide cond1 || decide cond2 || decide cond3 || decide cond4
  let clamped := if sex = "male" then max 5 (min a4 45) else max 12 (min a4 50)
  { adjusted_bf := roundTo 1 clamped
    original_bf := roundTo 1 bf_prediction
    was_adjusted := was
    adjustment := roundTo 1 (clamped - bf_prediction)
    reason := r4
    confidence := if was then "adjusted" else "high" }

/-! ## app/services/ensemble_predictor.py

The cascading confidence adjustments of the fusion engine are modelled
as four ordered transforms on a `(texture, rules)` confidence pair,
applied exactly in source order; the adjustment notes are modelled as
tags. -/

structure Confs where
  texture : ℚ
  rules : ℚ
deriving DecidableEq

/-- Flag `measurements_suspicious` (defaults `0.4`, `0.3` for missing keys). -/
def measurementsSuspicious (m : Measurements) (r : Ratios) : Prop :=
  m.shoulder_width.getD 0.4 < 0.25 ∨ m.hip_width.getD 0.3 < 0.15 ∨ r.waist_to_shoulder > 0.80

instance (m : Measurements) (r : Ratios) : Decidable (measurementsSuspicious m r) := by
  unfold measurementsSuspicious
  infer_instance

/-- CASO 1 trigger. -/
def isAthlete (td : TextureData) (bmi : ℚ) : Prop :=
  td.definition_score > 0.65 ∧ td.abs_visibility > 0.60 ∧ td.central_fat < 0.45 ∧
    20 ≤ bmi ∧ bmi ≤ 26

instance (td : TextureData) (bmi : ℚ) : Decidable (isAthlete td bmi) := by
  unfold isAthlete
  infer_instance

/-- CASO 2 trigger. -/
def isOverweightCase (bmi waist_to_shoulder : ℚ) : Prop :=
  bmi > 28 ∧ waist_to_shoulder > 0.65

instance (bmi w : ℚ) : Decidable (isOverweightCase bmi w) := by
  unfold isOverweightCase
  infer_instance

/-- CASO 1: athlete — boost texture, damp rules. -/
def applyCase1 (athlete : Bool) (c : Confs) : Confs :=
  if athlete then { texture := min (c.texture * 1.4) 1, rules := c.rules * 0.9 } else c

/-- CASO 2: overweight — boost rules, damp texture. -/
def applyCase2 (ow : Bool) (c : Confs) : Confs :=
  if ow then { texture := c.texture * 0.85, rules := min (c.rules * 1.3) 1 } else c

/-- CASO 3: suspicious measurements — boost texture, damp rules. -/
def applyCase3 (susp : Bool) (c : Confs) : Confs :=
  if susp then { texture := min (c.texture * 1.6) 1, rules := c.rules * 0.7 } else c

/-- CASO 4: low image quality — reads the texture confidence as already
adjusted by the previous cases. -/
def applyCase4 (c : Confs) : Confs :=
  if c.texture < 0.4 then { texture := c.texture * 0.8, rules := min (c.rules * 1.2) 1 } else c

/-- Confidences after CASO 1–3. -/
def confsAfterCase3 (td : TextureData) (bmi : ℚ) (m : Measurements) (r : Ratios) : Confs :=
  applyCase3 (decide (measurementsSuspicious m r))
    (applyCase2 (decide (isOverweightCase bmi r.waist_to_shoulder))
      (applyCase1 (decide (isAthlete td bmi)) { texture := td.confidence, rules := 0.7 }))

/-- Confidences after all four cases. -/
def adjustedConfidences (td : TextureData) (bmi : ℚ) (m : Measurements) (r : Ratios) : Confs :=
  applyCase4 (confsAfterCase3 td bmi m r)

/-- Embedding of `_calculate_ml_confidence` from `ensemble_predictor.py`. -/
def calculate_ml_confidence (m : Measurements) (r : Ratios) (bmi : ℚ) : ℚ :=
  let c0 : ℚ := 0.5
  let c1 := if bmi < 18 ∨ bmi > 35 then c0 * 0.8 else c0
  let c2 := if r.waist_to_shoulder < 0.35 ∨ r.waist_to_shoulder > 0.80 then c1 * 0.85 else c1
  if m.volume_indicator.getD 0.15 < 0.10 ∨ m.volume_indicator.getD 0.15 > 0.35 then c2 * 0.9
  else c2

/-- Final confidence before the two-decimal rounding (`agreement`,
average confidence, clamp to `[0.3, 1]`, ML-divergence discount). -/
def finalConfidenceRaw (ml_prediction rules_prediction texture_prediction : ℚ) (c : Confs) : ℚ :=
  let pred_std_safe := |rules_prediction - texture_prediction| / 2
  let agreement := 1 - pred_std_safe / 20
  let avg_confidence := (c.rules + c.texture) / 2
  let fc0 := agreement * 0.6 + avg_confidence * 0.4
  let fc1 := max 0.3 (min fc0 1)
  if |ml_prediction - rules_prediction| > 15 then fc1 * 0.85 else fc1

/-- Embedding of `_get_confidence_level` from `ensemble_predictor.py`. -/
def getConfidenceLevel (confidence : ℚ) : String :=
  if confidence ≥ 0.85 then "Muito Alta"
  else if confidence ≥ 0.70 then "Alta"
  else if confidence ≥ 0.55 then "Média"
  else if confidence ≥ 0.40 then "Baixa"
  else "Muito Baixa"

/-- The (tagged) human-readable adjustment notes. -/
inductive Adjustment where
  | suspiciousMeasures
  | athleteDetected
  | overweightDetected
  | prioritizeTexture
  | lowImageQuality
  | mlDiverges
  | validationAdjusted
  | mlConfidenceReduced
deriving DecidableEq

structure SafeWeights where
  rules : ℚ
  texture : ℚ
deriving DecidableEq

structure ExpWeights where
  ml : ℚ
  rules : ℚ
  texture : ℚ
deriving DecidableEq

structure MlAnalysis where
  prediction : ℚ
  divergence_from_rules : ℚ
  confidence_impact : String
  status : String
deriving DecidableEq

structure SpecialCases where
  is_athlete : Bool
  is_overweight : Bool
  measurements_suspicious : Bool
  low_image_quality : Bool
deriving DecidableEq

structure EnsembleResult where
  final_prediction : ℚ
  safe_prediction : ℚ
  experimental_prediction : Option ℚ
  ml_prediction : ℚ
  rules_prediction : ℚ
  texture_prediction : ℚ
  safe_weights : SafeWeights
  experimental_weights : Option ExpWeights
  mode : String
  confidence : ℚ
  confidence_level : String
  adjustments : List Adjustment
  ml_analysis : MlAnalysis
  special_cases : SpecialCases
deriving DecidableEq

/-- Embedding of `ensemble_predict_body_fat` from `ensemble_predictor.py`.  The
experimental quantities are computed unconditionally here and published
only when `use_experimental_ml` is set, which is observationally the
same as computing them inside the `if`.  In Python the returned
`experimental_prediction` goes through `round(...) if ep else None`, so
an exactly-zero experimental value is published as `None`. -/
def ensemble_predict_body_fat (ml_prediction rules_prediction : ℚ) (texture_data : TextureData)
    (bmi : ℚ) (sex : String) (measurements : Measurements) (ratios : Ratios)
    (use_experimental_ml : Bool) : EnsembleResult :=
  let texture_prediction := estimate_bf_from_definition texture_data sex bmi
  let suspicious := decide (measurementsSuspicious measurements ratios)
  let c := adjustedConfidences texture_data bmi measurements ratios
  let safe_rules_weight := c.rules / (c.rules + c.texture)
  let safe_texture_weight := c.texture / (c.rules + c.texture)
  let safe_prediction := rules_prediction * safe_rules_weight +
    texture_prediction * safe_texture_weight
  let ml_divergence := |ml_prediction - rules_prediction|
  let ml_confidence := if use_experimental_ml = true ∧ ml_divergence > 10 then
      calculate_ml_confidence measurements ratios bmi * 0.3
    else calculate_ml_confidence measurements ratios bmi
  let total_exp := ml_confidence + c.rules + c.texture
  let exp_ml_weight := ml_confidence / total_exp
  let exp_rules_weight := c.rules / total_exp
  let exp_texture_weight := c.texture / total_exp
  let experimental_prediction := ml_prediction * exp_ml_weight +
    rules_prediction * exp_rules_weight + texture_prediction * exp_texture_weight
  let validation := validate_and_adjust_bf safe_prediction bmi sex measurements ratios
  let final_prediction := validation.adjusted_bf
  let final_confidence := finalConfidenceRaw ml_prediction rules_prediction texture_prediction c
  { final_prediction := roundTo 1 (if use_experimental_ml then experimental_prediction
      else final_prediction)
    safe_prediction := roundTo 1 final_prediction
    experimental_prediction := if use_experimental_ml then
        (if experimental_prediction = 0 then none else some (roundTo 1 experimental_prediction))
      else none
    ml_prediction := roundTo 1 ml_prediction
    rules_prediction := roundTo 1 rules_prediction
    texture_prediction := roundTo 1 texture_prediction
    safe_weights := { rules := roundTo 3 safe_rules_weight, texture := roundTo 3 safe_texture_weight }
    experimental_weights := if use_experimental_ml then
        some { ml := roundTo 3 exp_ml_weight
               rules := roundTo 3 exp_rules_weight
               texture := roundTo 3 exp_texture_weight }
      else none
    mode := if use_experimental_ml then "EXPERIMENTAL" else "SAFE"
    confidence := roundTo 2 final_confidence
    confidence_level := getConfidenceLevel final_confidence
    adjustments :=
      (if suspicious then [Adjustment.suspiciousMeasures] else []) ++
      (if decide (isAthlete texture_data bmi) then [Adjustment.athleteDetected] else []) ++
      (if decide (isOverweightCase bmi ratios.waist_to_shoulder) then
        [Adjustment.overweightDetected] else []) ++
      (if suspicious then [Adjustment.prioritizeTexture] else []) ++
      (if (confsAfterCase3 texture_data bmi measurements ratios).texture < 0.4 then
        [Adjustment.lowImageQuality] else []) ++
      (if use_experimental_ml = true ∧ ml_divergence > 10 then [Adjustment.mlDiverges] else []) ++
      (if validation.was_adjusted then [Adjustment.validationAdjusted] else []) ++
      (if ml_divergence > 15 then [Adjustment.mlConfidenceReduced] else [])
    ml_analysis :=
      { prediction := roundTo 1 ml_prediction
        divergence_from_rules := roundTo 1 ml_divergence
        confidence_impact := if ml_divergence > 15 then "reduced" else "neutral"
        status := if use_experimental_ml then "active" else "quarantine" }
    special_cases :=
      { is_athlete := decide (isAthlete texture_data bmi)
        is_overweight := decide (isOverweightCase bmi ratios.waist_to_shoulder)
        measurements_suspicious := suspicious
        low_image_quality := decide (c.texture < 0.4) } }

/-! ## app/services/bf_estimator.py (estimate_body_composition, core path)

The steps that talk to external collaborators (image validation,
landmark extraction, texture analysis, face-based sex/age estimation,
the pickled regressor) are modelled by their outcomes, which are inputs
here: `measurements`, `texture_data` and `ml_outcome` (`some v` when
`regressor.predict` returned `v`, `none` when it raised and the code
fell into the `except` branch).  The surrounding `try` is modelled by
the `Except` result; the photo-validation warning strings are upstream
of the estimation core and are not modelled. -/

inductive Alert where
  | mlUnavailable
  | ensembleNote (a : Adjustment)
deriving DecidableEq

structure CoreResult where
  body_type : String
  body_fat : ℚ
  estimation_method : String
  ensemble_info : Option EnsembleResult
  alerts : List Alert
  bmi : ℚ
deriving DecidableEq

/-- The estimation core of `estimate_body_composition`: ratios, BMI,
body type, optional ML prediction, rule-based prediction, then the
ensemble — used only when `use_ensemble` is set and an ML prediction is
available, otherwise the rule-based fallback. -/
def estimate_body_composition_core (measurements : Measurements) (texture_data : TextureData)
    (weight_kg height_cm : ℚ) (sex : String) (ml_outcome : Option ℚ)
    (use_ml use_ensemble use_experimental_ml : Bool) (noise : ℚ) : Except PyErr CoreResult :=
  match calculate_body_ratios measurements with
  | .error e => .error e
  | .ok ratios =>
    if height_cm / 100 = 0 then .error .zeroDivisionError
    else
      let bmi := weight_kg / (height_cm / 100) ^ 2
      let body_type := classify_body_type ratios sex (some bmi)
      let ml_prediction : Option ℚ := if use_ml then ml_outcome else none
      let alerts : List Alert :=
        if use_ml = true ∧ ml_outcome = none then [Alert.mlUnavailable] else []
      let rules_prediction := estimate_body_fat body_type bmi sex (some ratios)
        (some measurements) noise
      match ml_prediction, use_ensemble with
      | some mlp, true =>
        let er := ensemble_predict_body_fat mlp rules_prediction texture_data bmi sex
          measurements ratios use_experimental_ml
        .ok { body_type := body_type
              body_fat := er.safe_prediction
              estimation_method := "Ensemble V3 - " ++ er.mode ++ " MODE"
              ensemble_info := some er
              alerts := alerts ++ er.adjustments.map Alert.ensembleNote
              bmi := roundTo 1 bmi }
      | _, _ =>
        .ok { body_type := body_type
              body_fat := rules_prediction
              estimation_method := "Rule-based"
              ensemble_info := none
              alerts := alerts
              bmi := roundTo 1 bmi }

/-! ## Invariants of the confidence pipeline -/

theorem applyCase1_rules_pos (b : Bool) {c : Confs} (h : 0 < c.rules) :
    0 < (applyCase1 b c).rules := by
  unfold applyCase1
  split_ifs
  · show 0 < c.rules * 0.9
    linarith
  · exact h

theorem applyCase2_rules_pos (b : Bool) {c : Confs} (h : 0 < c.rules) :
    0 < (applyCase2 b c).rules := by
  unfold applyCase2
  split_ifs
  · show 0 < min (c.rules * 1.3) 1
    exact lt_min (by linarith) one_pos
  · exact h

theorem applyCase3_rules_pos (b : Bool) {c : Confs} (h : 0 < c.rules) :
    0 < (applyCase3 b c).rules := by
  unfold applyCase3
  split_ifs
  · show 0 < c.rules * 0.7
    linarith
  · exact h

theorem applyCase4_rules_pos {c : Confs} (h : 0 < c.rules) : 0 < (applyCase4 c).rules := by
  unfold applyCase4
  split_ifs
  · show 0 < min (c.rules * 1.2) 1
    exact lt_min (by linarith) one_pos
  · exact h

theorem applyCase1_texture_nonneg (b : Bool) {c : Confs} (h : 0 ≤ c.texture) :
    0 ≤ (applyCase1 b c).texture := by
  unfold applyCase1
  split_ifs
  · show 0 ≤ min (c.texture * 1.4) 1
    exact le_min (by linarith) zero_le_one
  · exact h

theorem applyCase2_texture_nonneg (b : Bool) {c : Confs} (h : 0 ≤ c.texture) :
    0 ≤ (applyCase2 b c).texture := by
  unfold applyCase2
  split_ifs
  · show 0 ≤ c.texture * 0.85
    linarith
  · exact h

theorem applyCase3_texture_nonneg (b : Bool) {c : Confs} (h : 0 ≤ c.texture) :
    0 ≤ (applyCase3 b c).texture := by
  unfold applyCase3
  split_ifs
  · show 0 ≤ min (c.texture * 1.6) 1
    exact le_min (by linarith) zero_le_one
  · exact h

theorem applyCase4_texture_nonneg {c : Confs} (h : 0 ≤ c.texture) :
    0 ≤ (applyCase4 c).texture := by
  unfold applyCase4
  split_ifs
  · show 0 ≤ c.texture * 0.8
    linarith
  · exact h

/-- The rules confidence stays strictly positive through the cascade. -/
theorem adjustedConfidences_rules_pos (td : TextureData) (bmi : ℚ) (m : Measurements)
    (r : Ratios) : 0 < (adjustedConfidences td bmi m r).rules := by
  unfold adjustedConfidences confsAfterCase3
  apply applyCase4_rules_pos
  apply applyCase3_rules_pos
  apply applyCase2_rules_pos
  apply applyCase1_rules_pos
  norm_num

/-- The texture confidence stays nonnegative through the cascade. -/
theorem adjustedConfidences_texture_nonneg (td : TextureData) (bmi : ℚ) (m : Measurements)
    (r : Ratios) (h : 0 ≤ td.confidence) : 0 ≤ (adjustedConfidences td bmi m r).texture := by
  unfold adjustedConfidences confsAfterCase3
  apply applyCase4_texture_nonneg
  apply applyCase3_texture_nonneg
  apply applyCase2_texture_nonneg
  apply applyCase1_texture_nonneg
  exact h

/-- The ML confidence is strictly positive. -/
theorem calculate_ml_confidence_pos (m : Measurements) (r : Ratios) (bmi : ℚ) :
    0 < calculate_ml_confidence m r bmi := by
  unfold calculate_ml_confidence
  split_ifs <;> norm_num

/-! ## Further rounding / clamping toolkit -/

theorem clamp_abs_sub_le (lo hi a b : ℚ) :
    |max lo (min a hi) - max lo (min b hi)| ≤ |a - b| := by
  have h1 : |min a hi - min b hi| ≤ |a - b| := by
    simpa using abs_min_sub_min_le_max a hi b hi
  have h2 : |max lo (min a hi) - max lo (min b hi)| ≤ |min a hi - min b hi| := by
    rw [max_comm lo, max_comm lo]
    exact abs_max_sub_max_le_abs _ _ _
  linarith

theorem abs_roundTo_sub_roundTo_le (d : ℕ) (x y : ℚ) :
    |roundTo d x - roundTo d y| ≤ |x - y| + 1 / 10 ^ d := by
  have h1 := abs_roundTo_sub_le d x
  have h2 := abs_roundTo_sub_le d y
  have h3 : (0 : ℚ) < 10 ^ d := by positivity
  have h4 : roundTo d x - roundTo d y = (roundTo d x - x) + (x - y) + (y - roundTo d y) := by ring
  calc |roundTo d x - roundTo d y| ≤ |roundTo d x - x| + |x - y| + |y - roundTo d y| := by
        rw [h4]
        exact le_trans (abs_add _ _) (by gcongr; exact abs_add _ _)
    _ ≤ 1 / (2 * 10 ^ d) + |x - y| + 1 / (2 * 10 ^ d) := by
        rw [abs_sub_comm y (roundTo d y)]
        gcongr
    _ = |x - y| + 1 / 10 ^ d := by
        field_simp
        ring

/-! ## Claim C3 — BMI override in the body-type classifier -/

/-- C3 (counterexample): the claim says every input with BMI ≥ 28 is
classified `"overweight"` regardless of the ratios; a male input with
`waist_to_shoulder = 0.3`, `hip_to_shoulder = 0.8` and BMI 30 is
classified `"muscular"` instead, because the muscular branch is tested
first. -/
theorem claim_C3_counterexample :
    classify_body_type ⟨0.3, 0.8, 1⟩ "male" (some 30) = "muscular" ∧
    classify_body_type ⟨0.3, 0.8, 1⟩ "male" (some 30) ≠ "overweight" := by
  have h : classify_body_type ⟨0.3, 0.8, 1⟩ "male" (some 30) = "muscular" := by
    norm_num [classify_body_type, bmiTruthyGe28]
  exact ⟨h, by rw [h]; decide⟩

/-- C3 (amended): for BMI ≥ 28 the classifier returns `"overweight"`
unless the sex-specific muscular pattern fires first (male:
`waist_to_shoulder < 0.4` and `hip_to_shoulder < 0.85`; female:
`waist_to_shoulder < 0.45` and `hip_to_shoulder < 0.9`), in which case
it returns `"muscular"`. -/
theorem claim_C3_amended (r : Ratios) (sex : String) (b : ℚ) (hb : 28 ≤ b) :
    classify_body_type r sex (some b) =
      if (if sex = "female" then r.waist_to_shoulder < 0.45 ∧ r.hip_to_shoulder < 0.9
          else r.waist_to_shoulder < 0.4 ∧ r.hip_to_shoulder < 0.85) then "muscular"
      else "overweight" := by
  have hb0 : ¬b = 0 := by intro h; rw [h] at hb; norm_num at hb
  have htr : bmiTruthyGe28 (some b) := ⟨hb0, hb⟩
  unfold classify_body_type
  by_cases hf : sex = "female" <;> simp only [hf, if_true, if_false, reduceIte] <;>
    split_ifs with h1 h2 <;> first | rfl | exact absurd (Or.inr htr) (by assumption)

/-- C3 (witness): a male input with BMI 30 whose ratios do not match
the muscular pattern is classified `"overweight"`. -/
theorem claim_C3_witness :
    classify_body_type ⟨1 / 2, 9 / 10, 1⟩ "male" (some 30) = "overweight" := by
  have h := claim_C3_amended ⟨1 / 2, 9 / 10, 1⟩ "male" 30 (by norm_num)
  norm_num at h
  exact h

/-! ## Claim C5 — the noise term of the rule-based estimator -/

/-- C5 (counterexample): the estimator draws a hidden
`random.uniform(-0.5, 0.5)` perturbation; two calls with identical
inputs under the default configuration can observe two different legal
draws (here `0` and `0.3`) and return different outputs, refuting the
claimed determinism. -/
theorem claim_C5_counterexample :
    (-(1 / 2) ≤ (0 : ℚ) ∧ (0 : ℚ) ≤ 1 / 2) ∧
    (-(1 / 2) ≤ (3 / 10 : ℚ) ∧ (3 / 10 : ℚ) ≤ 1 / 2) ∧
    estimate_body_fat "lean" 20 "male" none none 0 ≠
      estimate_body_fat "lean" 20 "male" none none (3 / 10) := by
  refine ⟨⟨by norm_num, by norm_num⟩, ⟨by norm_num, by norm_num⟩, ?_⟩
  have h1 : estimate_body_fat "lean" 20 "male" none none 0 = 9 := by
    norm_num [estimate_body_fat, baseValue, bmiAdjustment, waistAdjustment, visualAdjustment]
    rw [show (9 : ℚ) = ((90 : ℤ) : ℚ) / 10 ^ 1 by norm_num]
    exact roundTo_eq_low 1 (by norm_num) (by norm_num)
  have h2 : estimate_body_fat "lean" 20 "male" none none (3 / 10) = 93 / 10 := by
    norm_num [estimate_body_fat, baseValue, bmiAdjustment, waistAdjustment, visualAdjustment]
    rw [show (93 / 10 : ℚ) = ((93 : ℤ) : ℚ) / 10 ^ 1 by norm_num]
    exact roundTo_eq_low 1 (by norm_num) (by norm_num)
  rw [h1, h2]
  norm_num

/-- C5 (amended): the noise is a hidden per-call draw from
`uniform(-0.5, 0.5)`, not an injectable parameter; modelling the draw
as an explicit argument, two calls with identical inputs agree whenever
the draws agree, and in any case differ by at most `1.1` (two
half-unit draws plus the final one-decimal rounding). -/
theorem claim_C5_amended (bt : String) (bmi : ℚ) (sex : String) (r : Option Ratios)
    (m : Option Measurements) (n1 n2 : ℚ) (h1 : |n1| ≤ 1 / 2) (h2 : |n2| ≤ 1 / 2) :
    |estimate_body_fat bt bmi sex r m n1 - estimate_body_fat bt bmi sex r m n2| ≤ 11 / 10 := by
  have hn : |n1 - n2| ≤ 1 := le_trans (abs_sub _ _) (by linarith)
  unfold estimate_body_fat
  have key : ∀ lo hi : ℚ,
      |roundTo 1 (max lo (min (baseValue bt sex + bmiAdjustment bmi + waistAdjustment sex r +
          visualAdjustment m + n1) hi)) -
        roundTo 1 (max lo (min (baseValue bt sex + bmiAdjustment bmi + waistAdjustment sex r +
          visualAdjustment m + n2) hi))| ≤ 11 / 10 := by
    intro lo hi
    have hc := clamp_abs_sub_le lo hi
      (baseValue bt sex + bmiAdjustment bmi + waistAdjustment sex r + visualAdjustment m + n1)
      (baseValue bt sex + bmiAdjustment bmi + waistAdjustment sex r + visualAdjustment m + n2)
    have hr := abs_roundTo_sub_roundTo_le 1
      (max lo (min (baseValue bt sex + bmiAdjustment bmi + waistAdjustment sex r +
        visualAdjustment m + n1) hi))
      (max lo (min (baseValue bt sex + bmiAdjustment bmi + waistAdjustment sex r +
        visualAdjustment m + n2) hi))
    have hsimp : (baseValue bt sex + bmiAdjustment bmi + waistAdjustment sex r +
        visualAdjustment m + n1) - (baseValue bt sex + bmiAdjustment bmi +
        waistAdjustment sex r + visualAdjustment m + n2) = n1 - n2 := by ring
    rw [hsimp] at hc
    norm_num at hr
    linarith
  split_ifs
  · exact key 5 45
  · exact key 12 50

/-- C5 (witness): the bound applied at the two concrete draws of the
counterexample. -/
theorem claim_C5_witness :
    |estimate_body_fat "lean" 20 "male" none none 0 -
      estimate_body_fat "lean" 20 "male" none none (3 / 10)| ≤ 11 / 10 :=
  claim_C5_amended "lean" 20 "male" none none 0 (3 / 10)
    (by rw [abs_le]; constructor <;> norm_num)
    (by rw [abs_le]; constructor <;> norm_num)

/-! ## Claim C6 — failure modes of the ratio calculator -/

/-- C6 (counterexample): with `shoulder_width` missing (and the other
keys present) the calculator fails with `KeyError`, not with a division
error as claimed. -/
theorem claim_C6_counterexample :
    calculate_body_ratios ⟨none, some 0.3, some 0.24, some 0.5, none, none⟩ =
      .error (.keyError "shoulder_width") ∧
    calculate_body_ratios ⟨none, some 0.3, some 0.24, some 0.5, none, none⟩ ≠
      .error .zeroDivisionError := by
  constructor <;> simp [calculate_body_ratios, dictGet, pyDiv]

/-- C6 (amended): with the numerator keys present, a zero
`shoulder_width` raises `ZeroDivisionError`, a missing `shoulder_width`
raises `KeyError("shoulder_width")`, and any nonzero (in particular any
positive) `shoulder_width` yields the three ratios. -/
theorem claim_C6_amended (m : Measurements) (wv hv tv : ℚ) (hw : m.waist_width = some wv)
    (hh : m.hip_width = some hv) (ht : m.torso_height = some tv) :
    (m.shoulder_width = some 0 → calculate_body_ratios m = .error .zeroDivisionError) ∧
    (m.shoulder_width = none →
      calculate_body_ratios m = .error (.keyError "shoulder_width")) ∧
    ∀ sv, m.shoulder_width = some sv → 0 < sv →
      calculate_body_ratios m = .ok ⟨wv / sv, hv / sv, tv / sv⟩ := by
  refine ⟨fun hs => ?_, fun hs => ?_, fun sv hs hpos => ?_⟩ <;>
    simp [calculate_body_ratios, dictGet, pyDiv, hw, hh, ht, hs]
  simp [hpos.ne']

/-- C6 (witness): the success case of the amendment at a concrete
measurement mapping. -/
theorem claim_C6_witness :
    calculate_body_ratios ⟨some 2, some 1, some 1, some 3, none, none⟩ =
      .ok ⟨1 / 2, 1 / 2, 3 / 2⟩ := by
  have h := (claim_C6_amended ⟨some 2, some 1, some 1, some 3, none, none⟩ 1 1 3
    rfl rfl rfl).2.2 2 rfl (by norm_num)
  exact h

/-! ## Claim C8 — monotonicity of the rule-based estimate in the waist ratio -/

/-- C8: holding the body type, BMI, sex, the other ratios, the
measurements and the hidden noise draw fixed, a larger
`waist_to_shoulder` never decreases the rule-based estimate. -/
theorem claim_C8 (bt : String) (bmi : ℚ) (sex : String) (hts tts : ℚ)
    (m : Option Measurements) (noise w1 w2 : ℚ) (hw : w1 ≤ w2) :
    estimate_body_fat bt bmi sex (some ⟨w1, hts, tts⟩) m noise ≤
      estimate_body_fat bt bmi sex (some ⟨w2, hts, tts⟩) m noise := by
  have hwa : waistAdjustment sex (some ⟨w1, hts, tts⟩) ≤
      waistAdjustment sex (some ⟨w2, hts, tts⟩) := by
    unfold waistAdjustment
    dsimp only
    split_ifs <;> push_neg at * <;> linarith
  unfold estimate_body_fat
  split_ifs <;>
    · apply roundTo_mono
      apply max_le_max le_rfl
      apply min_le_min _ le_rfl
      linarith

/-- C8 (witness): the monotonicity applied at two concrete waist
ratios. -/
theorem claim_C8_witness :
    estimate_body_fat "lean" 22 "male" (some ⟨0.5, 0.7, 1⟩) none 0 ≤
      estimate_body_fat "lean" 22 "male" (some ⟨0.6, 0.7, 1⟩) none 0 :=
  claim_C8 "lean" 22 "male" 0.7 1 none 0 0.5 0.6 (by norm_num)

/-! ## Claim C9 — the validator override at BMI 20, estimate 30, male -/

/-- C9 (counterexample): the claim bounds the adjusted value by 16 for
every measurements/ratios input, but when the athletic override (rule
2) also fires it overwrites rule 1's value with
`8 + waist_to_shoulder * 20`, which reaches `17.8` at
`waist_to_shoulder = 0.49`, `volume_indicator = 0.25`. -/
theorem claim_C9_counterexample :
    ¬((validate_and_adjust_bf 30 20 "male" ⟨none, none, none, none, some 0.25, none⟩
        ⟨0.49, 0.8, 1⟩).adjusted_bf ≤ 16) := by
  have h : (validate_and_adjust_bf 30 20 "male" ⟨none, none, none, none, some 0.25, none⟩
      ⟨0.49, 0.8, 1⟩).adjusted_bf = roundTo 1 (89 / 5) := by
    norm_num [validate_and_adjust_bf, min_def, max_def]
  rw [h, roundTo_eq_low 1 (n := 178) (by norm_num) (by norm_num)]
  norm_num

/-- C9 (amended): with candidate estimate 30, BMI 20, male, and any
measurements and any ratios with a nonnegative waist ratio, the
validator always reports `was_adjusted = true` and returns a value in
`[8, 18]` (rule 1 yields 12; the athletic override, when it fires,
yields `8 + waist_to_shoulder * 20 < 18`). -/
theorem claim_C9_amended (m : Measurements) (r : Ratios) (hw : 0 ≤ r.waist_to_shoulder) :
    8 ≤ (validate_and_adjust_bf 30 20 "male" m r).adjusted_bf ∧
    (validate_and_adjust_bf 30 20 "male" m r).adjusted_bf ≤ 18 ∧
    (validate_and_adjust_bf 30 20 "male" m r).was_adjusted = true := by
  unfold validate_and_adjust_bf
  norm_num
  split_ifs with h1
  · rw [min_eq_left (by linarith [h1.1]), max_eq_right (by linarith)]
    have hlo := scaled_le_roundTo 1 80 (x := 8 + r.waist_to_shoulder * 20)
      (by push_cast; linarith)
    have hhi := roundTo_le_scaled 1 180 (x := 8 + r.waist_to_shoulder * 20)
      (by push_cast; linarith [h1.1])
    norm_num at hlo hhi
    exact ⟨hlo, hhi⟩
  · rw [show ((5 : ℚ) ⊔ 12 ⊓ 45) = 12 by norm_num [min_def, max_def],
      roundTo_eq_low 1 (n := 120) (by norm_num) (by norm_num)]
    norm_num

/-- C9 (witness): the amended bounds at a concrete non-athletic
input. -/
theorem claim_C9_witness :
    8 ≤ (validate_and_adjust_bf 30 20 "male" ⟨none, none, none, none, none, none⟩
        ⟨0.6, 0.75, 1.2⟩).adjusted_bf ∧
    (validate_and_adjust_bf 30 20 "male" ⟨none, none, none, none, none, none⟩
        ⟨0.6, 0.75, 1.2⟩).adjusted_bf ≤ 18 ∧
    (validate_and_adjust_bf 30 20 "male" ⟨none, none, none, none, none, none⟩
        ⟨0.6, 0.75, 1.2⟩).was_adjusted = true :=
  claim_C9_amended ⟨none, none, none, none, none, none⟩ ⟨0.6, 0.75, 1.2⟩ (by norm_num)

/-! ## Bounds of the physiological validator -/

theorem roundTo_int_bounds {u v : ℤ} {y : ℚ} (h1 : (u : ℚ) ≤ y) (h2 : y ≤ (v : ℚ)) :
    (u : ℚ) ≤ roundTo 1 y ∧ roundTo 1 y ≤ (v : ℚ) := by
  constructor
  · have hc : ((u * 10 : ℤ) : ℚ) / 10 ^ 1 = (u : ℚ) := by push_cast; ring
    rw [← hc]
    apply scaled_le_roundTo
    rw [hc]
    exact h1
  · have hc : ((v * 10 : ℤ) : ℚ) / 10 ^ 1 = (v : ℚ) := by push_cast; ring
    rw [← hc]
    apply roundTo_le_scaled
    rw [hc]
    exact h2

/-- Whatever estimate it is handed, the validator's final clamp keeps
the adjusted value inside the sex-specific physiological bounds. -/
theorem validator_bounds (bf bmi : ℚ) (sex : String) (m : Measurements) (r : Ratios) :
    (if sex = "male" then (5 : ℚ) else 12) ≤ (validate_and_adjust_bf bf bmi sex m r).adjusted_bf ∧
    (validate_and_adjust_bf bf bmi sex m r).adjusted_bf ≤
      (if sex = "male" then (45 : ℚ) else 50) := by
  unfold validate_and_adjust_bf
  dsimp only
  by_cases hs : sex = "male" <;> simp only [hs, if_true, if_neg, reduceIte]
  · exact ⟨by exact_mod_cast (roundTo_int_bounds (u := 5) (v := 45)
        (le_max_left _ _) (max_le (by norm_num) (min_le_right _ _))).1,
      by exact_mod_cast (roundTo_int_bounds (u := 5) (v := 45)
        (le_max_left _ _) (max_le (by norm_num) (min_le_right _ _))).2⟩
  · exact ⟨by exact_mod_cast (roundTo_int_bounds (u := 12) (v := 50)
        (le_max_left _ _) (max_le (by norm_num) (min_le_right _ _))).1,
      by exact_mod_cast (roundTo_int_bounds (u := 12) (v := 50)
        (le_max_left _ _) (max_le (by norm_num) (min_le_right _ _))).2⟩

/-- The published SAFE number of the fusion engine is the one-decimal
rounding of a validator output fed with the fused estimate. -/
theorem ensemble_safe_prediction_shape (mlp rp : ℚ) (td : TextureData) (bmi : ℚ) (sex : String)
    (m : Measurements) (r : Ratios) (ue : Bool) :
    ∃ x, (ensemble_predict_body_fat mlp rp td bmi sex m r ue).safe_prediction =
      roundTo 1 (validate_and_adjust_bf x bmi sex m r).adjusted_bf :=
  ⟨_, rfl⟩

/-- In SAFE mode the headline value coincides with the (validated)
safe prediction. -/
theorem ensemble_final_eq_safe (mlp rp : ℚ) (td : TextureData) (bmi : ℚ) (sex : String)
    (m : Measurements) (r : Ratios) :
    (ensemble_predict_body_fat mlp rp td bmi sex m r false).final_prediction =
      (ensemble_predict_body_fat mlp rp td bmi sex m r false).safe_prediction := rfl

/-! ## Claim C1 — sex bounds of the published prediction -/

/-- C1 (counterexample): in EXPERIMENTAL mode the headline
`final_prediction` is the unvalidated ML/rules/texture blend; with a
finite ML estimate of 200 and rules estimate 45 (male, BMI 25) the
published headline is 50.5, outside the male bounds `[5, 45]`. -/
theorem claim_C1_counterexample :
    ¬((ensemble_predict_body_fat 200 45 ⟨0.5, 0.5, 0.5, 0.5, 0.7⟩ 25 "male"
        ⟨none, none, none, none, none, none⟩ ⟨0.6, 0.75, 1.2⟩ true).final_prediction ≤ 45) := by
  norm_num [ensemble_predict_body_fat, estimate_bf_from_definition, adjustedConfidences,
    confsAfterCase3, applyCase1, applyCase2, applyCase3, applyCase4, measurementsSuspicious,
    isAthlete, isOverweightCase, calculate_ml_confidence, decide_eq_true_eq, min_def, max_def]
  have h24 : roundTo 1 (24 : ℚ) = 24 := by
    have h := roundTo_intCast 1 24
    norm_num at h
    exact h
  rw [h24]
  have h := scaled_le_roundTo 1 500 (x := (1230 / 31 + 24 * (14 / 31) : ℚ)) (by norm_num)
  norm_num at h
  linarith

/-- C1 (amended): the SAFE prediction (the validated value, always
returned) lies within the sex bounds for every input, and in SAFE mode
the published `final_prediction` equals it, hence also lies within the
bounds; in EXPERIMENTAL mode the headline is the unvalidated
experimental blend and can leave the bounds. -/
theorem claim_C1_amended (mlp rp : ℚ) (td : TextureData) (bmi : ℚ) (sex : String)
    (m : Measurements) (r : Ratios) (ue : Bool) :
    ((if sex = "male" then (5 : ℚ) else 12) ≤
        (ensemble_predict_body_fat mlp rp td bmi sex m r ue).safe_prediction ∧
      (ensemble_predict_body_fat mlp rp td bmi sex m r ue).safe_prediction ≤
        (if sex = "male" then (45 : ℚ) else 50)) ∧
    (ue = false →
      (if sex = "male" then (5 : ℚ) else 12) ≤
          (ensemble_predict_body_fat mlp rp td bmi sex m r ue).final_prediction ∧
        (ensemble_predict_body_fat mlp rp td bmi sex m r ue).final_prediction ≤
          (if sex = "male" then (45 : ℚ) else 50)) := by
  have hsafe : ∀ b : Bool,
      (if sex = "male" then (5 : ℚ) else 12) ≤
        (ensemble_predict_body_fat mlp rp td bmi sex m r b).safe_prediction ∧
      (ensemble_predict_body_fat mlp rp td bmi sex m r b).safe_prediction ≤
        (if sex = "male" then (45 : ℚ) else 50) := by
    intro b
    obtain ⟨x, hx⟩ := ensemble_safe_prediction_shape mlp rp td bmi sex m r b
    rw [hx]
    have hb := validator_bounds x bmi sex m r
    by_cases hs : sex = "male" <;> simp only [hs, if_true, if_neg, reduceIte] at hb ⊢
    · exact ⟨by exact_mod_cast (roundTo_int_bounds (u := 5) (v := 45) hb.1 hb.2).1,
        by exact_mod_cast (roundTo_int_bounds (u := 5) (v := 45) hb.1 hb.2).2⟩
    · exact ⟨by exact_mod_cast (roundTo_int_bounds (u := 12) (v := 50) hb.1 hb.2).1,
        by exact_mod_cast (roundTo_int_bounds (u := 12) (v := 50) hb.1 hb.2).2⟩
  refine ⟨hsafe ue, fun hue => ?_⟩
  subst hue
  rw [ensemble_final_eq_safe]
  exact hsafe false

/-- C1 (witness): the amended bounds at a concrete SAFE-mode male
input. -/
theorem claim_C1_witness :
    (5 : ℚ) ≤ (ensemble_predict_body_fat 20 18 ⟨1 / 2, 1 / 2, 1 / 2, 1 / 2, 7 / 10⟩ 23 "male"
        ⟨none, none, none, none, none, none⟩ ⟨3 / 5, 3 / 4, 6 / 5⟩ false).final_prediction ∧
      (ensemble_predict_body_fat 20 18 ⟨1 / 2, 1 / 2, 1 / 2, 1 / 2, 7 / 10⟩ 23 "male"
        ⟨none, none, none, none, none, none⟩ ⟨3 / 5, 3 / 4, 6 / 5⟩ false).final_prediction ≤ 45 := by
  have h := (claim_C1_amended 20 18 ⟨1 / 2, 1 / 2, 1 / 2, 1 / 2, 7 / 10⟩ 23 "male"
    ⟨none, none, none, none, none, none⟩ ⟨3 / 5, 3 / 4, 6 / 5⟩ false).2 rfl
  norm_num at h
  exact h

/-! ## Field shapes of the fusion result -/

theorem ensemble_special_cases_shape (mlp rp : ℚ) (td : TextureData) (bmi : ℚ) (sex : String)
    (m : Measurements) (r : Ratios) (ue : Bool) :
    (ensemble_predict_body_fat mlp rp td bmi sex m r ue).special_cases =
      { is_athlete := decide (isAthlete td bmi)
        is_overweight := decide (isOverweightCase bmi r.waist_to_shoulder)
        measurements_suspicious := decide (measurementsSuspicious m r)
        low_image_quality := decide ((adjustedConfidences td bmi m r).texture < 0.4) } := rfl

theorem ensemble_safe_weights_shape (mlp rp : ℚ) (td : TextureData) (bmi : ℚ) (sex : String)
    (m : Measurements) (r : Ratios) (ue : Bool) :
    (ensemble_predict_body_fat mlp rp td bmi sex m r ue).safe_weights =
      { rules := roundTo 3 ((adjustedConfidences td bmi m r).rules /
          ((adjustedConfidences td bmi m r).rules + (adjustedConfidences td bmi m r).texture))
        texture := roundTo 3 ((adjustedConfidences td bmi m r).texture /
          ((adjustedConfidences td bmi m r).rules +
            (adjustedConfidences td bmi m r).texture)) } := rfl

theorem ensemble_safe_prediction_eq (mlp rp : ℚ) (td : TextureData) (bmi : ℚ) (sex : String)
    (m : Measurements) (r : Ratios) (ue : Bool) :
    (ensemble_predict_body_fat mlp rp td bmi sex m r ue).safe_prediction =
      roundTo 1 (validate_and_adjust_bf
        (rp * ((adjustedConfidences td bmi m r).rules /
            ((adjustedConfidences td bmi m r).rules + (adjustedConfidences td bmi m r).texture)) +
          estimate_bf_from_definition td sex bmi * ((adjustedConfidences td bmi m r).texture /
            ((adjustedConfidences td bmi m r).rules + (adjustedConfidences td bmi m r).texture)))
        bmi sex m r).adjusted_bf := rfl

theorem ensemble_confidence_shape (mlp rp : ℚ) (td : TextureData) (bmi : ℚ) (sex : String)
    (m : Measurements) (r : Ratios) (ue : Bool) :
    (ensemble_predict_body_fat mlp rp td bmi sex m r ue).confidence =
      roundTo 2 (finalConfidenceRaw mlp rp (estimate_bf_from_definition td sex bmi)
        (adjustedConfidences td bmi m r)) := rfl

theorem ensemble_experimental_weights_shape (mlp rp : ℚ) (td : TextureData) (bmi : ℚ)
    (sex : String) (m : Measurements) (r : Ratios) (ue : Bool) :
    (ensemble_predict_body_fat mlp rp td bmi sex m r ue).experimental_weights =
      if ue then
        some { ml := roundTo 3 ((if ue = true ∧ |mlp - rp| > 10 then
                  calculate_ml_confidence m r bmi * 0.3 else calculate_ml_confidence m r bmi) /
                ((if ue = true ∧ |mlp - rp| > 10 then calculate_ml_confidence m r bmi * 0.3
                    else calculate_ml_confidence m r bmi) +
                  (adjustedConfidences td bmi m r).rules + (adjustedConfidences td bmi m r).texture))
               rules := roundTo 3 ((adjustedConfidences td bmi m r).rules /
                ((if ue = true ∧ |mlp - rp| > 10 then calculate_ml_confidence m r bmi * 0.3
                    else calculate_ml_confidence m r bmi) +
                  (adjustedConfidences td bmi m r).rules + (adjustedConfidences td bmi m r).texture))
               texture := roundTo 3 ((adjustedConfidences td bmi m r).texture /
                ((if ue = true ∧ |mlp - rp| > 10 then calculate_ml_confidence m r bmi * 0.3
                    else calculate_ml_confidence m r bmi) +
                  (adjustedConfidences td bmi m r).rules +
                  (adjustedConfidences td bmi m r).texture)) }
      else none := rfl

/-! ## Claim C4 — the overweight scenario -/

theorem roundTo_lt_roundTo (d : ℕ) {x y : ℚ} (h : x + 1 / 10 ^ d < y) :
    roundTo d x < roundTo d y := by
  have hc : (0 : ℚ) < 10 ^ d := by positivity
  have hx := abs_rhe_sub_le (x * 10 ^ d)
  have hy := abs_rhe_sub_le (y * 10 ^ d)
  rw [abs_le] at hx hy
  have hxy : x * 10 ^ d + 1 < y * 10 ^ d := by
    have h' := mul_lt_mul_of_pos_right h hc
    rw [add_mul, one_div, inv_mul_cancel₀ hc.ne'] at h'
    exact h'
  have hint : rhe (x * 10 ^ d) < rhe (y * 10 ^ d) := by
    have hq : (rhe (x * 10 ^ d) : ℚ) < (rhe (y * 10 ^ d) : ℚ) := by linarith [hx.2, hy.1]
    exact_mod_cast hq
  unfold roundTo
  rw [div_lt_div_right hc]
  exact_mod_cast hint

/-- C4 (counterexample): at BMI exactly 28 the overweight special case
does not fire, because the code requires `bmi > 28` strictly (the spec
scenario asserts it fires at BMI = 28). -/
theorem claim_C4_counterexample :
    (ensemble_predict_body_fat 19 19 ⟨1 / 2, 1 / 2, 1 / 2, 1 / 2, 4 / 5⟩ 28 "male"
      ⟨none, none, none, none, none, none⟩
      ⟨17 / 25, 3 / 4, 6 / 5⟩ false).special_cases.is_overweight = false := by
  rw [ensemble_special_cases_shape]
  dsimp only
  rw [decide_eq_false]
  norm_num [isOverweightCase]

/-- The validator keeps a fused estimate in `[19, 24]` inside `[19, 24]`
at BMI 28.1, male, waist ratio 0.68 (only the high-BMI rule can fire,
replacing the value by 20.15), including the final one-decimal
rounding applied by the fusion engine. -/
theorem validator_mid_c4 (F : ℚ) (m : Measurements) (r2 r3 : ℚ) (h19 : 19 ≤ F) (h24 : F ≤ 24) :
    19 ≤ roundTo 1 (validate_and_adjust_bf F (281 / 10) "male" m
        ⟨17 / 25, r2, r3⟩).adjusted_bf ∧
    roundTo 1 (validate_and_adjust_bf F (281 / 10) "male" m
        ⟨17 / 25, r2, r3⟩).adjusted_bf ≤ 24 := by
  have hb : 19 ≤ (validate_and_adjust_bf F (281 / 10) "male" m ⟨17 / 25, r2, r3⟩).adjusted_bf ∧
      (validate_and_adjust_bf F (281 / 10) "male" m ⟨17 / 25, r2, r3⟩).adjusted_bf ≤ 24 := by
    unfold validate_and_adjust_bf
    norm_num
    split_ifs with h3
    · rw [show ((5 : ℚ) ⊔ (403 / 20) ⊓ 45) = 403 / 20 by norm_num [min_def, max_def]]
      exact ⟨by exact_mod_cast (roundTo_int_bounds (u := 19) (v := 24)
          (y := (403 / 20 : ℚ)) (by norm_num) (by norm_num)).1,
        by exact_mod_cast (roundTo_int_bounds (u := 19) (v := 24)
          (y := (403 / 20 : ℚ)) (by norm_num) (by norm_num)).2⟩
    · rw [min_eq_left (by linarith), max_eq_right (by linarith)]
      exact ⟨by exact_mod_cast (roundTo_int_bounds (u := 19) (v := 24) h19 h24).1,
        by exact_mod_cast (roundTo_int_bounds (u := 19) (v := 24) h19 h24).2⟩
  exact ⟨by exact_mod_cast (roundTo_int_bounds (u := 19) (v := 24) hb.1 hb.2).1,
    by exact_mod_cast (roundTo_int_bounds (u := 19) (v := 24) hb.1 hb.2).2⟩

/-- C4 (amended): the scenario holds at BMI strictly above 28 (28.1
here), for any texture signals with a confidence in `[0, 1]` that yield
`texture_prediction = 24`, and any non-suspicious measurements:
`is_overweight` fires, the (rounded) rules weight strictly exceeds the
texture weight, and the returned SAFE prediction stays in `[19, 24]`. -/
theorem claim_C4_amended (td : TextureData) (m : Measurements) (r2 r3 mlp : ℚ) (ue : Bool)
    (htex : estimate_bf_from_definition td "male" (281 / 10) = 24)
    (hc0 : 0 ≤ td.confidence) (hc1 : td.confidence ≤ 1)
    (hsw : ¬(m.shoulder_width.getD 0.4 < 0.25)) (hhw : ¬(m.hip_width.getD 0.3 < 0.15)) :
    (ensemble_predict_body_fat mlp 19 td (281 / 10) "male" m
        ⟨17 / 25, r2, r3⟩ ue).special_cases.is_overweight = true ∧
    (ensemble_predict_body_fat mlp 19 td (281 / 10) "male" m
        ⟨17 / 25, r2, r3⟩ ue).safe_weights.texture <
      (ensemble_predict_body_fat mlp 19 td (281 / 10) "male" m
        ⟨17 / 25, r2, r3⟩ ue).safe_weights.rules ∧
    19 ≤ (ensemble_predict_body_fat mlp 19 td (281 / 10) "male" m
        ⟨17 / 25, r2, r3⟩ ue).safe_prediction ∧
    (ensemble_predict_body_fat mlp 19 td (281 / 10) "male" m
        ⟨17 / 25, r2, r3⟩ ue).safe_prediction ≤ 24 := by
  have hnoath : ¬isAthlete td (281 / 10) := by
    intro h
    have := h.2.2.2.2
    norm_num at this
  have hover : isOverweightCase (281 / 10) (17 / 25) := by
    constructor <;> norm_num
  have hnosusp : ¬measurementsSuspicious m ⟨17 / 25, r2, r3⟩ := by
    intro h
    rcases h with h | h | h
    · exact hsw h
    · exact hhw h
    · norm_num at h
  have hconf : adjustedConfidences td (281 / 10) m ⟨17 / 25, r2, r3⟩ =
      applyCase4 ⟨td.confidence * (17 / 20), 91 / 100⟩ := by
    unfold adjustedConfidences confsAfterCase3
    rw [decide_eq_false hnoath, decide_eq_true hover, decide_eq_false hnosusp]
    unfold applyCase1 applyCase2 applyCase3
    norm_num [min_def]
  rcases lt_or_le (td.confidence * (17 / 20)) (2 / 5) with hlow | hhigh
  · have hc4 : adjustedConfidences td (281 / 10) m ⟨17 / 25, r2, r3⟩ =
        ⟨td.confidence * (17 / 20) * (4 / 5), 1⟩ := by
      rw [hconf]
      unfold applyCase4
      rw [if_pos (by dsimp only; linarith)]
      norm_num [min_def]
    have htc : td.confidence * (17 / 20) * (4 / 5) < 8 / 25 := by linarith
    have htc0 : 0 ≤ td.confidence * (17 / 20) * (4 / 5) := by positivity
    have hT : (0 : ℚ) < 1 + td.confidence * (17 / 20) * (4 / 5) := by linarith
    have hsum : (1 : ℚ) / (1 + td.confidence * (17 / 20) * (4 / 5)) +
        td.confidence * (17 / 20) * (4 / 5) / (1 + td.confidence * (17 / 20) * (4 / 5)) = 1 := by
      field_simp
    have hA0 : 0 ≤ (1 : ℚ) / (1 + td.confidence * (17 / 20) * (4 / 5)) := by positivity
    have hw0 : 0 ≤ td.confidence * (17 / 20) * (4 / 5) /
        (1 + td.confidence * (17 / 20) * (4 / 5)) := by positivity
    have hw1 : td.confidence * (17 / 20) * (4 / 5) /
        (1 + td.confidence * (17 / 20) * (4 / 5)) ≤ 1 := by
      rw [div_le_one hT]
      linarith
    refine ⟨?_, ?_, ?_, ?_⟩
    · rw [ensemble_special_cases_shape]
      dsimp only
      exact decide_eq_true hover
    · rw [ensemble_safe_weights_shape]
      dsimp only
      rw [hc4]
      dsimp only
      apply roundTo_lt_roundTo
      rw [div_add' _ _ _ (ne_of_gt hT), div_lt_div_right hT]
      norm_num
      linarith
    · rw [ensemble_safe_prediction_eq, htex, hc4]
      dsimp only
      exact (validator_mid_c4 _ m r2 r3 (by linarith) (by linarith)).1
    · rw [ensemble_safe_prediction_eq, htex, hc4]
      dsimp only
      exact (validator_mid_c4 _ m r2 r3 (by linarith) (by linarith)).2
  · have hc4 : adjustedConfidences td (281 / 10) m ⟨17 / 25, r2, r3⟩ =
        ⟨td.confidence * (17 / 20), 91 / 100⟩ := by
      rw [hconf]
      unfold applyCase4
      rw [if_neg (by dsimp only; norm_num; linarith)]
    have htc : td.confidence * (17 / 20) ≤ 17 / 20 := by linarith
    have htc0 : 0 ≤ td.confidence * (17 / 20) := by positivity
    have hT : (0 : ℚ) < 91 / 100 + td.confidence * (17 / 20) := by linarith
    have hsum : (91 / 100 : ℚ) / (91 / 100 + td.confidence * (17 / 20)) +
        td.confidence * (17 / 20) / (91 / 100 + td.confidence * (17 / 20)) = 1 := by
      field_simp
      ring
    have hA0 : 0 ≤ (91 / 100 : ℚ) / (91 / 100 + td.confidence * (17 / 20)) := by positivity
    have hw0 : 0 ≤ td.confidence * (17 / 20) / (91 / 100 + td.confidence * (17 / 20)) := by
      positivity
    have hw1 : td.confidence * (17 / 20) / (91 / 100 + td.confidence * (17 / 20)) ≤ 1 := by
      rw [div_le_one hT]
      linarith
    refine ⟨?_, ?_, ?_, ?_⟩
    · rw [ensemble_special_cases_shape]
      dsimp only
      exact decide_eq_true hover
    · rw [ensemble_safe_weights_shape]
      dsimp only
      rw [hc4]
      dsimp only
      apply roundTo_lt_roundTo
      rw [div_add' _ _ _ (ne_of_gt hT), div_lt_div_right hT]
      norm_num
      linarith
    · rw [ensemble_safe_prediction_eq, htex, hc4]
      dsimp only
      exact (validator_mid_c4 _ m r2 r3 (by linarith) (by linarith)).1
    · rw [ensemble_safe_prediction_eq, htex, hc4]
      dsimp only
      exact (validator_mid_c4 _ m r2 r3 (by linarith) (by linarith)).2

/-- C4 (witness): the amended scenario at concrete texture signals with
confidence 0.8. -/
theorem claim_C4_witness :
    (ensemble_predict_body_fat 19 19 ⟨1 / 2, 1 / 2, 1 / 2, 1 / 2, 4 / 5⟩ (281 / 10) "male"
        ⟨none, none, none, none, none, none⟩
        ⟨17 / 25, 3 / 4, 6 / 5⟩ false).special_cases.is_overweight = true ∧
    19 ≤ (ensemble_predict_body_fat 19 19 ⟨1 / 2, 1 / 2, 1 / 2, 1 / 2, 4 / 5⟩ (281 / 10) "male"
        ⟨none, none, none, none, none, none⟩
        ⟨17 / 25, 3 / 4, 6 / 5⟩ false).safe_prediction := by
  have h := claim_C4_amended ⟨1 / 2, 1 / 2, 1 / 2, 1 / 2, 4 / 5⟩
    ⟨none, none, none, none, none, none⟩ (3 / 4) (6 / 5) 19 false
    (by norm_num [estimate_bf_from_definition]
        rw [show (24 : ℚ) = ((240 : ℤ) : ℚ) / 10 ^ 1 by norm_num]
        exact roundTo_eq_low 1 (by norm_num) (by norm_num))
    (by norm_num) (by norm_num) (by norm_num) (by norm_num)
  exact ⟨h.1, h.2.2.1⟩

/-! ## Claim C7 — normalization of the published weights -/

/-- Three one-in-a-thousand roundings of a triple summing to 1 sum to 1
up to one part in a thousand (each rounding moves its weight by at most
`5e-4`, and the rounded sum is a multiple of `1e-3`). -/
theorem roundTo_three_triple {a b c : ℚ} (h : a + b + c = 1) :
    |roundTo 3 a + roundTo 3 b + roundTo 3 c - 1| ≤ 1 / 1000 := by
  have ha := abs_rhe_sub_le (a * 10 ^ 3)
  have hb := abs_rhe_sub_le (b * 10 ^ 3)
  have hc := abs_rhe_sub_le (c * 10 ^ 3)
  rw [abs_le] at ha hb hc
  have hsum : a * 10 ^ 3 + b * 10 ^ 3 + c * 10 ^ 3 = 1000 := by nlinarith [h]
  set NA := rhe (a * 10 ^ 3) with hNA
  set NB := rhe (b * 10 ^ 3) with hNB
  set NC := rhe (c * 10 ^ 3) with hNC
  have hq : |((NA + NB + NC - 1000 : ℤ) : ℚ)| ≤ 3 / 2 := by
    push_cast
    rw [abs_le]
    constructor <;> linarith
  have hN : |NA + NB + NC - 1000| ≤ 1 := by
    have h2 : (|NA + NB + NC - 1000| : ℤ) < 2 := by
      have hc2 : ((|NA + NB + NC - 1000| : ℤ) : ℚ) < 2 := by
        rw [Int.cast_abs]
        exact lt_of_le_of_lt hq (by norm_num)
      exact_mod_cast hc2
    omega
  have hqq : roundTo 3 a + roundTo 3 b + roundTo 3 c - 1 =
      ((NA + NB + NC - 1000 : ℤ) : ℚ) / 1000 := by
    unfold roundTo
    rw [← hNA, ← hNB, ← hNC]
    push_cast
    ring
  rw [hqq]
  have habs : |((NA + NB + NC - 1000 : ℤ) : ℚ) / 1000| =
      ((|NA + NB + NC - 1000| : ℤ) : ℚ) / 1000 := by
    rw [abs_div, Int.cast_abs]
    norm_num
  rw [habs]
  have hcast : ((|NA + NB + NC - 1000| : ℤ) : ℚ) ≤ 1 := by exact_mod_cast hN
  linarith

/-- C7 (counterexample): with confidences `(0.5, 0.7, 0.7)` (typical
ML confidence, base rules confidence, texture confidence 0.7, no
special case, no divergence) the three returned EXPERIMENTAL weights
are `0.263/0.368/0.368`, summing to `0.999` — off by `1e-3`, not within
the claimed `1e-6`. -/
theorem claim_C7_counterexample :
    ((ensemble_predict_body_fat 20 20 ⟨1 / 2, 1 / 2, 1 / 2, 1 / 2, 7 / 10⟩ 25 "male"
        ⟨none, none, none, none, none, none⟩ ⟨3 / 5, 3 / 4, 6 / 5⟩ true).experimental_weights).map
      (fun w => |w.ml + w.rules + w.texture - 1|) = some (1 / 1000) ∧
    ¬((1 / 1000 : ℚ) ≤ 1 / 1000000) := by
  constructor
  · rw [ensemble_experimental_weights_shape]
    norm_num [adjustedConfidences, confsAfterCase3, applyCase1, applyCase2, applyCase3,
      applyCase4, measurementsSuspicious, isAthlete, isOverweightCase, calculate_ml_confidence,
      decide_eq_true_eq]
    rw [roundTo_eq_low 3 (x := (5 / 19 : ℚ)) (n := 263) (by norm_num) (by norm_num),
      roundTo_eq_low 3 (x := (7 / 19 : ℚ)) (n := 368) (by norm_num) (by norm_num)]
    rw [show ((263 : ℤ) : ℚ) / 10 ^ 3 + ((368 : ℤ) : ℚ) / 10 ^ 3 + ((368 : ℤ) : ℚ) / 10 ^ 3 - 1 =
      -(1 / 1000) by norm_num]
    rw [abs_neg, abs_of_nonneg (by norm_num)]
  · norm_num

/-- C7 (amended): for every input with a nonnegative texture
confidence, the two returned SAFE weights sum to exactly 1 (the two
three-decimal half-even roundings of complementary weights cancel),
and, whenever present, the three returned EXPERIMENTAL weights sum to 1
only up to `1e-3` (the rounding of the normalized triple loses up to
half a unit in the last place per weight). -/
theorem claim_C7_amended (mlp rp : ℚ) (td : TextureData) (bmi : ℚ) (sex : String)
    (m : Measurements) (r : Ratios) (ue : Bool) (hc : 0 ≤ td.confidence) :
    (ensemble_predict_body_fat mlp rp td bmi sex m r ue).safe_weights.rules +
      (ensemble_predict_body_fat mlp rp td bmi sex m r ue).safe_weights.texture = 1 ∧
    ∀ w, (ensemble_predict_body_fat mlp rp td bmi sex m r ue).experimental_weights = some w →
      |w.ml + w.rules + w.texture - 1| ≤ 1 / 1000 := by
  have hrc := adjustedConfidences_rules_pos td bmi m r
  have htc := adjustedConfidences_texture_nonneg td bmi m r hc
  have hT : (0 : ℚ) < (adjustedConfidences td bmi m r).rules +
      (adjustedConfidences td bmi m r).texture := by linarith
  constructor
  · rw [ensemble_safe_weights_shape]
    dsimp only
    have hcompl : (adjustedConfidences td bmi m r).texture /
        ((adjustedConfidences td bmi m r).rules + (adjustedConfidences td bmi m r).texture) =
        1 - (adjustedConfidences td bmi m r).rules /
          ((adjustedConfidences td bmi m r).rules + (adjustedConfidences td bmi m r).texture) := by
      field_simp
    rw [hcompl]
    exact roundTo_three_compl _
  · intro w hw
    rw [ensemble_experimental_weights_shape] at hw
    cases ue
    · simp at hw
    · rw [if_pos rfl] at hw
      rw [Option.some_inj] at hw
      subst hw
      dsimp only
      have hml : (0 : ℚ) < (if 10 < |mlp - rp| then
          calculate_ml_confidence m r bmi * 0.3 else calculate_ml_confidence m r bmi) := by
        have := calculate_ml_confidence_pos m r bmi
        split_ifs <;> linarith
      apply roundTo_three_triple
      have hTe : (0 : ℚ) < (if 10 < |mlp - rp| then calculate_ml_confidence m r bmi * 0.3
          else calculate_ml_confidence m r bmi) + (adjustedConfidences td bmi m r).rules +
          (adjustedConfidences td bmi m r).texture := by linarith
      field_simp
      split_ifs <;> ring

/-- C7 (witness): the amended safe-weight sum at the counterexample's
input. -/
theorem claim_C7_witness :
    (ensemble_predict_body_fat 20 20 ⟨1 / 2, 1 / 2, 1 / 2, 1 / 2, 7 / 10⟩ 25 "male"
        ⟨none, none, none, none, none, none⟩ ⟨3 / 5, 3 / 4, 6 / 5⟩ true).safe_weights.rules +
      (ensemble_predict_body_fat 20 20 ⟨1 / 2, 1 / 2, 1 / 2, 1 / 2, 7 / 10⟩ 25 "male"
        ⟨none, none, none, none, none, none⟩ ⟨3 / 5, 3 / 4, 6 / 5⟩ true).safe_weights.texture = 1 :=
  (claim_C7_amended 20 20 ⟨1 / 2, 1 / 2, 1 / 2, 1 / 2, 7 / 10⟩ 25 "male"
    ⟨none, none, none, none, none, none⟩ ⟨3 / 5, 3 / 4, 6 / 5⟩ true (by norm_num)).1

/-! ## Claim C10 — range of the published confidence -/

theorem roundTo_two_ge_floor_bound {y : ℚ} (h : 51 / 200 ≤ y) : 51 / 200 ≤ roundTo 2 y := by
  have h100 : (51 : ℚ) / 2 ≤ y * 10 ^ 2 := by nlinarith
  have h26 : (26 : ℤ) ≤ rhe (y * 10 ^ 2) := by
    rcases le_or_lt 26 (y * 10 ^ 2) with hy | hy
    · exact int_le_rhe (by exact_mod_cast hy)
    · have hf : ⌊y * 10 ^ 2⌋ = 25 :=
        Int.floor_eq_iff.2 ⟨by push_cast; linarith, by push_cast; linarith⟩
      unfold rhe
      rw [hf]
      split_ifs with hA hB hC
      · exfalso
        push_cast at hA
        linarith
      · norm_num
      · exact absurd hC (by decide)
      · norm_num
  unfold roundTo
  have hcast : (26 : ℚ) ≤ (rhe (y * 10 ^ 2) : ℚ) := by exact_mod_cast h26
  have hdiv : (26 : ℚ) / 10 ^ 2 ≤ (rhe (y * 10 ^ 2) : ℚ) / 10 ^ 2 :=
    div_le_div_of_nonneg_right hcast (by positivity)
  norm_num at hdiv ⊢
  linarith

/-- Range facts for the raw final confidence after the two-decimal
rounding. -/
theorem confidence_bounds (a b c : ℚ) (cf : Confs) :
    51 / 200 ≤ roundTo 2 (finalConfidenceRaw a b c cf) ∧
    roundTo 2 (finalConfidenceRaw a b c cf) ≤ 1 ∧
    (|a - b| ≤ 15 → 3 / 10 ≤ roundTo 2 (finalConfidenceRaw a b c cf)) ∧
    (15 < |a - b| → roundTo 2 (finalConfidenceRaw a b c cf) ≤ 17 / 20) := by
  have key : finalConfidenceRaw a b c cf =
      (if |a - b| > 15 then
        (max 0.3 (min ((1 - |b - c| / 2 / 20) * 0.6 + (cf.rules + cf.texture) / 2 * 0.4) 1)) * 0.85
       else
        max 0.3 (min ((1 - |b - c| / 2 / 20) * 0.6 + (cf.rules + cf.texture) / 2 * 0.4) 1)) := rfl
  rw [key]
  set M := max (0.3 : ℚ)
    (min ((1 - |b - c| / 2 / 20) * 0.6 + (cf.rules + cf.texture) / 2 * 0.4) 1) with hM
  have h03 : (3 / 10 : ℚ) ≤ M := by
    rw [hM]
    exact le_trans (by norm_num) (le_max_left _ _)
  have h1 : M ≤ 1 := by
    rw [hM]
    exact max_le (by norm_num) (min_le_right _ _)
  split_ifs with hdiv
  · have hlo : (51 : ℚ) / 200 ≤ M * 0.85 := by nlinarith
    refine ⟨roundTo_two_ge_floor_bound hlo, ?_, fun hcon => absurd hdiv (by linarith), fun _ => ?_⟩
    · have h2 := roundTo_le_scaled 2 100 (x := M * 0.85) (by push_cast; nlinarith)
      norm_num at h2 ⊢
      linarith
    · have h2 := roundTo_le_scaled 2 85 (x := M * 0.85) (by push_cast; nlinarith)
      norm_num at h2 ⊢
      linarith
  · have hlo : (51 : ℚ) / 200 ≤ M := by linarith
    refine ⟨roundTo_two_ge_floor_bound hlo, ?_, fun _ => ?_, fun hcon => absurd hcon hdiv⟩
    · have h2 := roundTo_le_scaled 2 100 (x := M) (by push_cast; linarith)
      norm_num at h2 ⊢
      linarith
    · have h2 := scaled_le_roundTo 2 30 (x := M) (by push_cast; linarith)
      norm_num at h2 ⊢
      linarith

/-- C10: for every fusion input the published confidence lies in
`[0.255, 1]`; it can drop below the `0.3` clamp floor only when the ML
divergence exceeds 15, in which case the clamped value was multiplied
by `0.85` and the published confidence is at most `0.85`. -/
theorem claim_C10 (mlp rp : ℚ) (td : TextureData) (bmi : ℚ) (sex : String)
    (m : Measurements) (r : Ratios) (ue : Bool) :
    51 / 200 ≤ (ensemble_predict_body_fat mlp rp td bmi sex m r ue).confidence ∧
    (ensemble_predict_body_fat mlp rp td bmi sex m r ue).confidence ≤ 1 ∧
    (|mlp - rp| ≤ 15 →
      3 / 10 ≤ (ensemble_predict_body_fat mlp rp td bmi sex m r ue).confidence) ∧
    (15 < |mlp - rp| →
      (ensemble_predict_body_fat mlp rp td bmi sex m r ue).confidence ≤ 17 / 20) := by
  rw [ensemble_confidence_shape]
  exact confidence_bounds mlp rp (estimate_bf_from_definition td sex bmi)
    (adjustedConfidences td bmi m r)

/-- C10 (witness): the divergence-free lower bound at a concrete
input. -/
theorem claim_C10_witness :
    3 / 10 ≤ (ensemble_predict_body_fat 20 18 ⟨1 / 2, 1 / 2, 1 / 2, 1 / 2, 7 / 10⟩ 23 "male"
      ⟨none, none, none, none, none, none⟩ ⟨3 / 5, 3 / 4, 6 / 5⟩ false).confidence :=
  (claim_C10 20 18 ⟨1 / 2, 1 / 2, 1 / 2, 1 / 2, 7 / 10⟩ 23 "male"
    ⟨none, none, none, none, none, none⟩ ⟨3 / 5, 3 / 4, 6 / 5⟩ false).2.2.1
    (by rw [abs_le]; constructor <;> norm_num)

/-! ## Claim C2 — behaviour when the ML estimate is unavailable -/

/-- C2 (counterexample): with `ml_estimate = None` the estimate
operation does not run the fusion engine at all: the result has
`ensemble_info = None` (so no `mode`, no `ml_analysis.status`, no
weights) and falls back to the rule-based method. -/
theorem claim_C2_counterexample :
    (estimate_body_composition_core
        ⟨some (2 / 5), some (3 / 10), some (6 / 25), some (1 / 2), some (3 / 20), some 0⟩
        ⟨1 / 2, 1 / 2, 1 / 2, 1 / 2, 7 / 10⟩ 70 175 "male" none true true false 0).map
      (fun res => (res.ensemble_info, res.estimation_method)) =
      .ok (none, "Rule-based") := by
  norm_num [estimate_body_composition_core, calculate_body_ratios, dictGet, pyDiv, Except.map]

/-- C2 (amended): when the ML outcome is unavailable the core skips the
ensemble entirely — the returned result carries no fusion information
(`ensemble_info = None`), reports the `"Rule-based"` method, and, when
the ML path was enabled, records the audit note that the model was
unavailable. -/
theorem claim_C2_amended (m : Measurements) (td : TextureData) (w h : ℚ) (sex : String)
    (use_ml ue uexp : Bool) (noise : ℚ) (res : CoreResult)
    (hok : estimate_body_composition_core m td w h sex none use_ml ue uexp noise = .ok res) :
    res.ensemble_info = none ∧ res.estimation_method = "Rule-based" ∧
    (use_ml = true → Alert.mlUnavailable ∈ res.alerts) := by
  unfold estimate_body_composition_core at hok
  cases hr : calculate_body_ratios m with
  | error e =>
    rw [hr] at hok
    exact absurd hok (by simp)
  | ok ratios =>
    rw [hr] at hok
    dsimp only at hok
    by_cases hh : h / 100 = 0
    · rw [if_pos hh] at hok
      exact absurd hok (by simp)
    · rw [if_neg hh] at hok
      cases use_ml <;> cases ue <;> simp_all <;> (rw [← hok]; simp)

/-- C2 (witness): the amended fallback at a concrete input with the ML
outcome unavailable. -/
theorem claim_C2_witness :
    (estimate_body_composition_core
        ⟨some (2 / 5), some (3 / 10), some (6 / 25), some (1 / 2), some (3 / 20), some 0⟩
        ⟨1 / 2, 1 / 2, 1 / 2, 1 / 2, 7 / 10⟩ 70 175 "male" none true false false 0).map
      (fun res => res.estimation_method) = .ok "Rule-based" := by
  rcases hc : estimate_body_composition_core
      ⟨some (2 / 5), some (3 / 10), some (6 / 25), some (1 / 2), some (3 / 20), some 0⟩
      ⟨1 / 2, 1 / 2, 1 / 2, 1 / 2, 7 / 10⟩ 70 175 "male" none true false false 0 with e | res
  · exfalso
    norm_num [estimate_body_composition_core, calculate_body_ratios, dictGet, pyDiv] at hc
    exact Except.noConfusion hc
  · have hres := claim_C2_amended _ _ _ _ _ _ _ _ _ res hc
    simp [Except.map, hres.2.1]

end FitPlanner
